import Mathlib

/-!
Verification of the contacts CRUD service (src/main.py).

The service keeps contact records in a single SQL table `contacts` and
exposes five HTTP handlers.  We embed the handlers as pure functions over
an explicit store (a list of table rows).

Four of the handlers open their session as
`async with AsyncSessionLocal() as db:` — a real `AsyncSession` — and
work.  The create handler alone opens `async with Session(engine) as db:`
(src/main.py line 45): the synchronous `sqlalchemy.orm.Session` over the
asynchronous engine.  A sync `Session` does not implement the
asynchronous context-manager protocol, so that `async with` raises
`TypeError` on entry, before any database work; FastAPI surfaces the
uncaught exception as a generic HTTP 500.  The embedding therefore models
the create handler as unconditionally faulting, its store untouched.  The
identifier the handler would generate (`str(uuid.uuid4())`, line 47) is
kept as an explicit argument of the embedded function for signature
continuity with the source, but the faulting handler never reads it.

`select(ContactDB).filter_by(id=...)` followed by `.first()` is embedded
as `List.find?` on the row list.  The ORM's `commit` after
`session.delete` emits `DELETE FROM contacts WHERE id = ?`, embedded as
`List.filter`; the `commit` after the update handler's `setattr` loop
emits `UPDATE contacts SET ... WHERE id = <id the row was loaded with>`,
embedded as a `List.map` that rewrites the rows matching the original id.
-/

/-- A row of the `contacts` table (SQLAlchemy model `ContactDB`,
src/main.py lines 21-27): five string columns, `id` the primary key. -/
structure ContactDB where
  id : String
  nombres : String
  telefono : String
  email : String
  direccion : String
  deriving Repr, DecidableEq

/-- The request/response body (Pydantic model `Contact`, src/main.py
lines 35-40).  `id` is declared `str | None = None`, so it is the only
field a client may omit; the other four fields are required strings.
`id = none` models the field being absent from the request body (unset,
hence dropped by `dict(exclude_unset=True)` in the update handler).  An
explicit JSON `null` id — which would drive the primary-key column to
NULL and abort at commit with an unhandled constraint error (HTTP 500)
— is below the application level and outside this model. -/
structure Contact where
  id : Option String
  nombres : String
  telefono : String
  email : String
  direccion : String
  deriving Repr, DecidableEq

/-- `HTTPException(status_code=..., detail=...)` as raised by the
handlers. -/
structure HTTPException where
  status_code : Nat
  detail : String
  deriving Repr, DecidableEq

/-- The one application-level error: `HTTPException(status_code=404,
detail="Contact not found")` (src/main.py lines 72, 82, 96). -/
def contactNotFound : HTTPException := ⟨404, "Contact not found"⟩

/-- The store: the rows of the `contacts` table. -/
abbrev DB := List ContactDB

/-- `select(ContactDB).filter_by(id=contact_id)` then
`result.scalars().first()`: the first row whose id matches. -/
def findContact (contact_id : String) (db : DB) : Option ContactDB :=
  db.find? (fun c => c.id == contact_id)

/-- The failure mode of the create handler: the `TypeError` raised by
`async with Session(engine)` (src/main.py line 45), an uncaught
exception that FastAPI surfaces as a generic HTTP 500. -/
inductive CreateFault where
  | typeError
  deriving Repr, DecidableEq

set_option linter.unusedVariables false in
/-- `create_contact` (src/main.py lines 43-56): the handler body would
build a `ContactDB` keyed by the generated identifier `newId`
(`str(uuid.uuid4())`, line 47) and insert it, but control never reaches
it — `async with Session(engine)` (line 45) raises `TypeError` on entry,
the only handler to use the sync `Session` over the async engine.  Every
create request therefore fails before any database work, the store
unchanged (hence no result store in the error outcome). -/
def create_contact (newId : String) (contact : Contact) (db : DB) :
    Except CreateFault (ContactDB × DB) :=
  .error .typeError

/-- `get_contacts` (src/main.py lines 59-63): `select(ContactDB)` with no
filter returns every row. -/
def get_contacts (db : DB) : List ContactDB := db

/-- `get_contact` (src/main.py lines 66-73): first row with the given id,
404 when there is none. -/
def get_contact (contact_id : String) (db : DB) :
    Except HTTPException ContactDB :=
  match findContact contact_id db with
  | none => .error contactNotFound
  | some c => .ok c

/-- The `setattr` loop of the update handler (src/main.py lines 83-84):
every key in `updated_contact.dict(exclude_unset=True)` is copied onto
the loaded row.  The four required fields are always set on a validated
body, hence always copied; `id` is copied exactly when the body carried
it. -/
def applyUpdate (updated_contact : Contact) (c : ContactDB) : ContactDB :=
  { id := updated_contact.id.getD c.id
    nombres := updated_contact.nombres
    telefono := updated_contact.telefono
    email := updated_contact.email
    direccion := updated_contact.direccion }

/-- `update_contact` (src/main.py lines 76-87): loads the first row with
the given id (404 when absent), copies the set body fields onto it, and
commits — an `UPDATE ... WHERE id = contact_id` using the id the row was
loaded with. -/
def update_contact (contact_id : String) (updated_contact : Contact)
    (db : DB) : Except HTTPException (ContactDB × DB) :=
  match findContact contact_id db with
  | none => .error contactNotFound
  | some c =>
    let merged := applyUpdate updated_contact c
    .ok (merged, db.map (fun r => if r.id == contact_id then merged else r))

/-- The delete handler's response body
`{"message": "Contact deleted successfully"}` (src/main.py line 99). -/
structure DeleteResponse where
  message : String
  deriving Repr, DecidableEq

/-- `delete_contact` (src/main.py lines 90-99): 404 when no row has the
given id, otherwise removes the row (`DELETE FROM contacts WHERE
id = ?`) and returns the fixed confirmation message. -/
def delete_contact (contact_id : String) (db : DB) :
    Except HTTPException (DeleteResponse × DB) :=
  match findContact contact_id db with
  | none => .error contactNotFound
  | some _ =>
    .ok (⟨"Contact deleted successfully"⟩,
      db.filter (fun r => r.id != contact_id))

/-- A raw JSON body at the create/update endpoints, before Pydantic
validation: each of the five recognised keys is present with a string
value or absent. -/
structure RawContact where
  id : Option String
  nombres : Option String
  telefono : Option String
  email : Option String
  direccion : Option String
  deriving Repr, DecidableEq

/-- Pydantic validation of a body against the `Contact` model
(src/main.py lines 35-40): succeeds exactly when the four required
fields are present; `id` alone may be absent.  FastAPI rejects a body
this fails on with 422 before the handler runs. -/
def parseContact (raw : RawContact) : Option Contact :=
  match raw.nombres, raw.telefono, raw.email, raw.direccion with
  | some n, some t, some e, some d =>
    some { id := raw.id, nombres := n, telefono := t, email := e,
           direccion := d }
  | _, _, _, _ => none

/-- A sequence of attempted create operations: each input pairs the id
the server would generate with the submitted body; a create that fails
(as every one does, see `create_contact`) leaves the store as it was. -/
def createAll (inputs : List (String × Contact)) (db : DB) : DB :=
  inputs.foldl (fun acc p =>
    match create_contact p.1 p.2 acc with
    | .ok r => r.2
    | .error _ => acc) db

/-! Helper lemmas. -/

theorem findContact_eq_none_of_forall (contact_id : String) (db : DB)
    (h : ∀ c ∈ db, c.id ≠ contact_id) : findContact contact_id db = none := by
  unfold findContact
  rw [List.find?_eq_none]
  intro c hc
  simp only [beq_iff_eq]
  exact h c hc

/-! Claim theorems. -/

/-- C1: for every stored contact and every update request that reaches
the handler, the update overwrites exactly the fields set in the body
(the four required fields, and `id` when the body carried one), and the
field absent from the body — only `id` can be absent — retains its prior
stored value: partial-update semantics, not replace-semantics. -/
theorem update_contact_partial_semantics (contact_id : String)
    (body : Contact) (db : DB) (c : ContactDB)
    (hf : findContact contact_id db = some c) :
    ∃ db2, update_contact contact_id body db = .ok (applyUpdate body c, db2) ∧
      (applyUpdate body c).nombres = body.nombres ∧
      (applyUpdate body c).telefono = body.telefono ∧
      (applyUpdate body c).email = body.email ∧
      (applyUpdate body c).direccion = body.direccion ∧
      (body.id = none → (applyUpdate body c).id = c.id) ∧
      (∀ v, body.id = some v → (applyUpdate body c).id = v) := by
  refine ⟨db.map (fun r => if r.id == contact_id then applyUpdate body c
    else r), ?_, rfl, rfl, rfl, rfl, ?_, ?_⟩
  · simp [update_contact, hf]
  · intro h
    simp [applyUpdate, h]
  · intro v h
    simp [applyUpdate, h]

theorem update_contact_partial_semantics_witness :
    ∃ db2, update_contact "a" ⟨none, "N2", "T2", "E2", "D2"⟩
        [⟨"a", "N", "T", "E", "D"⟩] =
      .ok (applyUpdate ⟨none, "N2", "T2", "E2", "D2"⟩ ⟨"a", "N", "T", "E", "D"⟩,
        db2) ∧
      (applyUpdate ⟨none, "N2", "T2", "E2", "D2"⟩
        ⟨"a", "N", "T", "E", "D"⟩).nombres = "N2" ∧
      (applyUpdate ⟨none, "N2", "T2", "E2", "D2"⟩
        ⟨"a", "N", "T", "E", "D"⟩).telefono = "T2" ∧
      (applyUpdate ⟨none, "N2", "T2", "E2", "D2"⟩
        ⟨"a", "N", "T", "E", "D"⟩).email = "E2" ∧
      (applyUpdate ⟨none, "N2", "T2", "E2", "D2"⟩
        ⟨"a", "N", "T", "E", "D"⟩).direccion = "D2" ∧
      ((none : Option String) = none →
        (applyUpdate ⟨none, "N2", "T2", "E2", "D2"⟩
          ⟨"a", "N", "T", "E", "D"⟩).id = "a") ∧
      (∀ v, (none : Option String) = some v →
        (applyUpdate ⟨none, "N2", "T2", "E2", "D2"⟩
          ⟨"a", "N", "T", "E", "D"⟩).id = v) :=
  update_contact_partial_semantics "a" ⟨none, "N2", "T2", "E2", "D2"⟩
    [⟨"a", "N", "T", "E", "D"⟩] ⟨"a", "N", "T", "E", "D"⟩ (by decide)

/-- C2: the claim that `id` is immutable fails on the code.  At the
concrete failing input — store holding the single record with id "a",
update request for "a" whose body carries id "b" — the handler's
`setattr` loop copies the body's id onto the row, so the stored record's
primary key changes from "a" to "b". -/
theorem update_contact_overwrites_id :
    update_contact "a" ⟨some "b", "N", "T", "E", "D"⟩
        [⟨"a", "N", "T", "E", "D"⟩] =
      .ok (⟨"b", "N", "T", "E", "D"⟩, [⟨"b", "N", "T", "E", "D"⟩]) := by
  rfl

/-- C3: the claim fails on the code: no create request ever creates or
returns a record.  For every generated id, every body — with or without
a client-supplied id — and every store, the create handler fails with
the uncaught `TypeError` of src/main.py line 45 instead of returning a
record carrying a server-generated id; at the concrete failing input
(empty store, body carrying client id "client-id") the outcome is that
error. -/
theorem create_contact_always_crashes :
    (∀ (newId : String) (body : Contact) (db : DB),
      create_contact newId body db = .error CreateFault.typeError) ∧
    create_contact "u" ⟨some "client-id", "N", "T", "E", "D"⟩ [] =
      .error CreateFault.typeError :=
  ⟨fun _ _ _ => rfl, rfl⟩

/-- C10: Pydantic validation of a body against the `Contact` model
succeeds exactly when all four required fields (nombres, telefono,
email, direccion) are present; a body omitting any of them — in
particular an update body carrying only a strict subset of the four —
is rejected before any handler runs. -/
theorem body_requires_four_fields (raw : RawContact) :
    (parseContact raw).isSome ↔
      (raw.nombres.isSome ∧ raw.telefono.isSome ∧ raw.email.isSome ∧
        raw.direccion.isSome) := by
  rcases raw with ⟨i, n, t, e, d⟩
  cases n <;> cases t <;> cases e <;> cases d <;> simp [parseContact]

/-- C4: for an id not present in the store, get-by-id, update and delete
all fail with the 404 "Contact not found" error, and none succeeds. -/
theorem missing_id_yields_404 (contact_id : String) (body : Contact)
    (db : DB) (h : ∀ c ∈ db, c.id ≠ contact_id) :
    get_contact contact_id db = .error contactNotFound ∧
    update_contact contact_id body db = .error contactNotFound ∧
    delete_contact contact_id db = .error contactNotFound := by
  have hf := findContact_eq_none_of_forall contact_id db h
  refine ⟨?_, ?_, ?_⟩ <;>
    simp [get_contact, update_contact, delete_contact, hf]

theorem missing_id_yields_404_witness :
    get_contact "x" [] = .error contactNotFound ∧
    update_contact "x" ⟨none, "N", "T", "E", "D"⟩ [] =
      .error contactNotFound ∧
    delete_contact "x" [] = .error contactNotFound :=
  missing_id_yields_404 "x" ⟨none, "N", "T", "E", "D"⟩ [] (by simp)

/-- C5: the create-then-get round-trip fails on the code: the create
request crashes (TypeError at src/main.py line 45) before inserting
anything, so at the concrete input — a create on the empty store whose
id would have been "u" — no record is stored and the immediate get-by-id
returns the 404 error instead of the submitted fields. -/
theorem create_then_get_crashes :
    create_contact "u" ⟨none, "N", "T", "E", "D"⟩ [] =
      .error CreateFault.typeError ∧
    get_contact "u" [] = .error contactNotFound :=
  ⟨rfl, rfl⟩

/-- C6: after a successful delete of an id, a get-by-id with that same
id returns the 404 "Contact not found" error: the delete removes every
row carrying the id from the store. -/
theorem delete_then_get_404 (contact_id : String) (db : DB)
    (resp : DeleteResponse) (db2 : DB)
    (h : delete_contact contact_id db = .ok (resp, db2)) :
    get_contact contact_id db2 = .error contactNotFound := by
  unfold delete_contact at h
  cases hf : findContact contact_id db with
  | none => rw [hf] at h; cases h
  | some c =>
    rw [hf] at h
    have hdb2 : db2 = db.filter (fun r => r.id != contact_id) :=
      congrArg Prod.snd (Except.ok.inj h).symm
    have hfind : findContact contact_id db2 = none := by
      apply findContact_eq_none_of_forall
      intro r hr
      rw [hdb2, List.mem_filter] at hr
      simpa using hr.2
    simp [get_contact, hfind]

theorem delete_then_get_404_witness :
    get_contact "a" [] = .error contactNotFound :=
  delete_then_get_404 "a" [⟨"a", "N", "T", "E", "D"⟩]
    ⟨"Contact deleted successfully"⟩ [] (by rfl)

/-- C9: every successful delete returns exactly the confirmation body
with message "Contact deleted successfully". -/
theorem delete_success_message (contact_id : String) (db : DB)
    (resp : DeleteResponse) (db2 : DB)
    (h : delete_contact contact_id db = .ok (resp, db2)) :
    resp = ⟨"Contact deleted successfully"⟩ := by
  unfold delete_contact at h
  cases hf : findContact contact_id db with
  | none => rw [hf] at h; cases h
  | some c =>
    rw [hf] at h
    exact (congrArg Prod.fst (Except.ok.inj h)).symm

theorem delete_success_message_witness :
    (⟨"Contact deleted successfully"⟩ : DeleteResponse) =
      ⟨"Contact deleted successfully"⟩ :=
  delete_success_message "b" [⟨"b", "N", "T", "E", "D"⟩]
    ⟨"Contact deleted successfully"⟩ [] (by rfl)

/-- C7: the claim fails on the code: every create attempt crashes before
inserting, so any sequence of create attempts leaves the store exactly
as it was, and from the empty store the list endpoint returns the empty
collection — size 0, not N.  At the concrete failing input of two
attempted creates, the listing is empty instead of holding the two
records. -/
theorem list_after_creates_is_empty :
    (∀ (inputs : List (String × Contact)) (db : DB),
      createAll inputs db = db) ∧
    get_contacts (createAll [("u1", ⟨none, "N1", "T1", "E1", "D1"⟩),
      ("u2", ⟨none, "N2", "T2", "E2", "D2"⟩)] []) = [] := by
  have hall : ∀ (inputs : List (String × Contact)) (db : DB),
      createAll inputs db = db := by
    intro inputs
    induction inputs with
    | nil => intro db; rfl
    | cons p rest ih => intro db; exact ih db
  exact ⟨hall, hall _ []⟩

/-- C8: the claim fails on the code: a create operation never returns a
record at all — for every generated id, body and store the handler
crashes on session entry (src/main.py line 45), so its outcome carries
no record (`toOption` is `none`) and no id, non-empty or otherwise, is
ever exhibited; at the concrete failing input (empty store, id "u2")
the outcome carries no record. -/
theorem create_never_returns_record :
    (∀ (newId : String) (body : Contact) (db : DB),
      (create_contact newId body db).toOption = none) ∧
    (create_contact "u2" ⟨none, "N", "T", "E", "D"⟩ []).toOption = none :=
  ⟨fun _ _ _ => rfl, rfl⟩
